import Mathlib

/-!
Shallow embedding of `cmd/openai-cli/main.go` from `turtacn/go-openai`.

The program is a cobra-based CLI with seven subcommands, each of which
resolves an API key, builds one request, calls the remote API once, and
writes its result to the console or to a file.  The embedding turns every
handler into a pure function from an environment (the flag value, the
`OPENAI_API_KEY` variable, the remote API, and the file system, all given
as explicit inputs) to an observable trace: the number of outbound
requests, the files read and written, the lines printed, and the exit
kind.  A handler that would panic at runtime (index out of range) returns
`none`.

Standard-library calls made by the source (`encoding/base64`,
`encoding/json`, `[]byte(string)` UTF-8 conversion) are translated
faithfully below; `image.Decode` and `png.Encode` are kept abstract as
parameters of the environment, since only their success or failure flows
into the observable behavior.
-/

namespace OpenAICli

/-- Brace characters, used by the JSON grammar. -/
def lbraceChar : Char := Char.ofNat 123

def rbraceChar : Char := Char.ofNat 125

/-! ### UTF-8 bytes of a string: Go's `[]byte(s)` -/

/-- UTF-8 encoding of one scalar value, as Go produces for `[]byte(string)`. -/
def utf8Bytes (c : Char) : List Nat :=
  let n := c.toNat
  if n < 128 then [n]
  else if n < 2048 then [192 + n / 64, 128 + n % 64]
  else if n < 65536 then [224 + n / 4096, 128 + n / 64 % 64, 128 + n % 64]
  else [240 + n / 262144, 128 + n / 4096 % 64, 128 + n / 64 % 64, 128 + n % 64]

/-- Go's `[]byte(s)`. -/
def strBytes (s : String) : List Nat := (s.data.map utf8Bytes).flatten

/-! ### `encoding/base64` standard encoding -/

def b64Alphabet : List Char :=
  "ABCDEFGHIJKLMNOPQRSTUVWXYZabcdefghijklmnopqrstuvwxyz0123456789+/".data

def b64Char (n : Nat) : Char := b64Alphabet.getD n 'A'

def b64CharVal (c : Char) : Option Nat := b64Alphabet.findIdx? (· == c)

/-- `base64.StdEncoding.EncodeToString`, on the list of byte values. -/
def b64EncodeList : List Nat → List Char
  | [] => []
  | [a] => [b64Char (a / 4), b64Char (a % 4 * 16), '=', '=']
  | [a, b] => [b64Char (a / 4), b64Char (a % 4 * 16 + b / 16), b64Char (b % 16 * 4), '=']
  | a :: b :: c :: rest =>
      b64Char (a / 4) :: b64Char (a % 4 * 16 + b / 16) :: b64Char (b % 16 * 4 + c / 64) ::
        b64Char (c % 64) :: b64EncodeList rest

def base64Encode (bs : List Nat) : String := String.mk (b64EncodeList bs)

/-- Decode base64 in groups of four characters; padding is allowed only in the
final group, exactly as `base64.StdEncoding` accepts it. -/
def b64DecodeGroups : List Char → Option (List Nat)
  | [] => some []
  | c1 :: c2 :: c3 :: c4 :: rest =>
    match b64CharVal c1, b64CharVal c2 with
    | some v1, some v2 =>
      if c3 == '=' then
        if c4 == '=' && rest.isEmpty then some [v1 * 4 + v2 / 16] else none
      else
        match b64CharVal c3 with
        | some v3 =>
          if c4 == '=' then
            if rest.isEmpty then some [v1 * 4 + v2 / 16, v2 % 16 * 16 + v3 / 4] else none
          else
            match b64CharVal c4 with
            | some v4 =>
              (b64DecodeGroups rest).map
                (fun t => (v1 * 4 + v2 / 16) :: (v2 % 16 * 16 + v3 / 4) :: (v3 % 4 * 64 + v4) :: t)
            | none => none
        | none => none
    | _, _ => none
  | _ => none

/-- `base64.StdEncoding.DecodeString`: carriage returns and newlines are
ignored, everything else must be alphabet characters in padded groups of
four. -/
def base64Decode (s : String) : Except String (List Nat) :=
  match b64DecodeGroups (s.data.filter (fun c => !(c == '\n' || c == '\r'))) with
  | some bs => Except.ok bs
  | none => Except.error "illegal base64 data"

/-! ### `encoding/json`: the fragment `json.Unmarshal` needs for
`struct { Data string }` -/

inductive Json where
  | null : Json
  | bool (b : Bool) : Json
  | num : Json
  | str (s : String) : Json
  | arr (elems : List Json) : Json
  | obj (members : List (String × Json)) : Json

def skipWs (cs : List Char) : List Char :=
  cs.dropWhile fun c => c == ' ' || c == '\t' || c == '\n' || c == '\r'

def hexVal (c : Char) : Option Nat :=
  if '0' ≤ c ∧ c ≤ '9' then some (c.toNat - 48)
  else if 'a' ≤ c ∧ c ≤ 'f' then some (c.toNat - 87)
  else if 'A' ≤ c ∧ c ≤ 'F' then some (c.toNat - 55)
  else none

def escChar (e : Char) : Option Char :=
  if e == '"' then some '"'
  else if e == '\\' then some '\\'
  else if e == '/' then some '/'
  else if e == 'b' then some (Char.ofNat 8)
  else if e == 'f' then some (Char.ofNat 12)
  else if e == 'n' then some '\n'
  else if e == 'r' then some '\r'
  else if e == 't' then some '\t'
  else none

/-- Body of a JSON string after the opening quote: the decoded characters and
the remaining input.  A lone surrogate from a `\u` escape becomes U+FFFD. -/
def parseStringBody : List Char → Option (List Char × List Char)
  | [] => none
  | c :: rest =>
    if c == '"' then some ([], rest)
    else if c == '\\' then
      match rest with
      | [] => none
      | e :: rest2 =>
        if e == 'u' then
          match rest2 with
          | h1 :: h2 :: h3 :: h4 :: rest3 =>
            match hexVal h1, hexVal h2, hexVal h3, hexVal h4 with
            | some a, some b, some c2, some d =>
              let n := ((a * 16 + b) * 16 + c2) * 16 + d
              let ch := if n < 55296 ∨ 57344 ≤ n then Char.ofNat n else Char.ofNat 65533
              (parseStringBody rest3).map fun p => (ch :: p.1, p.2)
            | _, _, _, _ => none
          | _ => none
        else
          match escChar e with
          | none => none
          | some ch => (parseStringBody rest2).map fun p => (ch :: p.1, p.2)
    else if c.toNat < 32 then none
    else (parseStringBody rest).map fun p => (c :: p.1, p.2)

def parseDigitsTail (cs : List Char) : Option (List Char) :=
  if (cs.takeWhile Char.isDigit).isEmpty then none
  else some (cs.dropWhile Char.isDigit)

def parseNumExp (cs : List Char) : Option (List Char) :=
  match cs with
  | c :: rest =>
    if c == 'e' || c == 'E' then
      match rest with
      | s :: rest2 => if s == '+' || s == '-' then parseDigitsTail rest2 else parseDigitsTail rest
      | [] => none
    else some (c :: rest)
  | [] => some []

def parseNumFrac (cs : List Char) : Option (List Char) :=
  match cs with
  | '.' :: rest =>
    match parseDigitsTail rest with
    | none => none
    | some r => parseNumExp r
  | _ => parseNumExp cs

def parseNumInt (cs : List Char) : Option (List Char) :=
  match cs with
  | '0' :: rest => parseNumFrac rest
  | c :: rest => if c.isDigit then parseNumFrac (rest.dropWhile Char.isDigit) else none
  | [] => none

/-- A JSON number; only the consumed input matters for unmarshalling into a
string field. -/
def parseNumber (cs : List Char) : Option (List Char) :=
  match cs with
  | '-' :: rest => parseNumInt rest
  | _ => parseNumInt cs

mutual

/-- Parse one JSON value.  `fuel` only bounds recursion depth; it is chosen
large enough for the whole input by `jsonUnmarshalImageData`. -/
def parseJson : Nat → List Char → Option (Json × List Char)
  | 0, _ => none
  | f + 1, cs =>
    match skipWs cs with
    | [] => none
    | c :: rest =>
      if c == 'n' then
        match rest with
        | 'u' :: 'l' :: 'l' :: r => some (Json.null, r)
        | _ => none
      else if c == 't' then
        match rest with
        | 'r' :: 'u' :: 'e' :: r => some (Json.bool true, r)
        | _ => none
      else if c == 'f' then
        match rest with
        | 'a' :: 'l' :: 's' :: 'e' :: r => some (Json.bool false, r)
        | _ => none
      else if c == '"' then
        (parseStringBody rest).map fun p => (Json.str (String.mk p.1), p.2)
      else if c == lbraceChar then
        parseObjBody f (skipWs rest)
      else if c == '[' then
        parseArrBody f (skipWs rest)
      else if c == '-' || c.isDigit then
        (parseNumber (c :: rest)).map fun r => (Json.num, r)
      else none

def parseObjBody : Nat → List Char → Option (Json × List Char)
  | 0, _ => none
  | f + 1, cs =>
    match cs with
    | [] => none
    | c :: rest =>
      if c == rbraceChar then some (Json.obj [], rest)
      else parseMembers f (c :: rest) []

def parseMembers : Nat → List Char → List (String × Json) → Option (Json × List Char)
  | 0, _, _ => none
  | f + 1, cs, acc =>
    match cs with
    | c :: rest =>
      if c == '"' then
        match parseStringBody rest with
        | none => none
        | some (key, afterKey) =>
          match skipWs afterKey with
          | ':' :: afterColon =>
            match parseJson f afterColon with
            | none => none
            | some (v, afterVal) =>
              match skipWs afterVal with
              | ',' :: afterComma =>
                parseMembers f (skipWs afterComma) (acc ++ [(String.mk key, v)])
              | d :: afterClose =>
                if d == rbraceChar then some (Json.obj (acc ++ [(String.mk key, v)]), afterClose)
                else none
              | [] => none
          | _ => none
      else none
    | [] => none

def parseArrBody : Nat → List Char → Option (Json × List Char)
  | 0, _ => none
  | f + 1, cs =>
    match cs with
    | [] => none
    | c :: rest =>
      if c == ']' then some (Json.arr [], rest)
      else parseItems f (c :: rest) []

def parseItems : Nat → List Char → List Json → Option (Json × List Char)
  | 0, _, _ => none
  | f + 1, cs, acc =>
    match parseJson f cs with
    | none => none
    | some (v, afterVal) =>
      match skipWs afterVal with
      | ',' :: afterComma => parseItems f afterComma (acc ++ [v])
      | ']' :: afterClose => some (Json.arr (acc ++ [v]), afterClose)
      | _ => none

end

/-- ASCII lowercase, the case folding `encoding/json` applies to ASCII field
names. -/
def asciiLower (c : Char) : Char :=
  if 'A' ≤ c ∧ c ≤ 'Z' then Char.ofNat (c.toNat + 32) else c

def lowerKey (s : String) : String := String.mk (s.data.map asciiLower)

/-- The `data` field an object gives to `struct { Data string }`: later
duplicates overwrite earlier ones, a `null` value leaves the field alone,
any other non-string value is a type error, and field matching is
ASCII-case-insensitive, as `encoding/json` matches the `json:"data"` tag. -/
def extractDataField (members : List (String × Json)) : Except String String :=
  members.foldl
    (fun acc kv =>
      match acc with
      | Except.error e => Except.error e
      | Except.ok cur =>
        if lowerKey kv.1 == "data" then
          match kv.2 with
          | Json.str s => Except.ok s
          | Json.null => Except.ok cur
          | _ => Except.error "json: cannot unmarshal value into field of type string"
        else Except.ok cur)
    (Except.ok "")

/-- `json.Unmarshal([]byte(input), &imageData)` for
`type ImageData struct { Data string }`: the whole input must be one valid
JSON value followed only by whitespace; `null` leaves the zero value, an
object fills the field, anything else is a type error. -/
def jsonUnmarshalImageData (input : String) : Except String String :=
  match parseJson (3 * (input.length + 1)) input.data with
  | none => Except.error "invalid JSON input"
  | some (v, rest) =>
    if (skipWs rest).isEmpty then
      match v with
      | Json.null => Except.ok ""
      | Json.obj members => extractDataField members
      | _ => Except.error "json: cannot unmarshal value into Go value of type ImageData"
    else Except.error "invalid character after top-level value"

/-! ### Request and response types (the fragment of the go-openai client the
source uses) -/

structure Choice where
  text : String
deriving DecidableEq

structure CompletionRequest where
  prompt : String := ""
  model : String := ""
  maxTokens : Nat := 0
  temperature : Rat := 0
  n : Nat := 0
deriving DecidableEq

structure CompletionResponse where
  choices : List Choice
deriving DecidableEq

structure ImageRequest where
  prompt : String := ""
  n : Nat := 0
  size : String := ""
  responseFormat : String := ""
  user : String := ""
deriving DecidableEq

/-- One element of `ImageResponse.Data`; the source only reads `B64JSON`. -/
structure ImageResponseData where
  b64JSON : String := ""
deriving DecidableEq

structure ImageResponse where
  data : List ImageResponseData
deriving DecidableEq

/-- `ImageEditRequest`: the source passes the opened input file as the image
stream, embedded here by the file's name. -/
structure ImageEditRequest where
  image : String := ""
  prompt : String := ""
  n : Nat := 0
  size : String := ""
deriving DecidableEq

structure AudioRequest where
  filePath : String := ""
  model : String := ""
  prompt : String := ""
  temperature : Rat := 0
  language : String := ""
deriving DecidableEq

structure AudioResponse where
  text : String
deriving DecidableEq

def createImageSize256x256 : String := "256x256"

def createImageResponseFormatB64JSON : String := "b64_json"

/-! ### Observable behavior of one process run -/

/-- How the process ends: normally, or through `log.Fatal`, which prints its
message and exits. -/
inductive ExitKind where
  | ok : ExitKind
  | fatal (msg : String) : ExitKind
deriving DecidableEq

/-- Everything one invocation does to the outside world: outbound API
requests issued, files read (or opened, or handed to the client library),
files written with their contents, lines printed to stdout, and the exit. -/
structure Trace where
  requests : Nat
  reads : List String
  writes : List (String × List Nat)
  prints : List String
  exit : ExitKind
deriving DecidableEq

/-- The inputs of one invocation: the `--key` flag, the `OPENAI_API_KEY`
variable, the remote API (one function per endpoint used), and the file
system.  `writeFile` returns `some msg` when the write fails with that
error.  `Img`, `imageDecode` and `pngEncode` keep `image.Decode` and
`png.Encode` abstract. -/
structure Env (Img : Type) where
  flagKey : String
  envKey : String
  completionApi : CompletionRequest → Except String CompletionResponse
  imageApi : ImageRequest → Except String ImageResponse
  imageEditApi : ImageEditRequest → Except String ImageResponse
  audioApi : AudioRequest → Except String AudioResponse
  readFile : String → Except String (List Nat)
  openFile : String → Except String Unit
  writeFile : String → List Nat → Option String
  imageDecode : List Nat → Except String Img
  pngEncode : Img → Except String (List Nat)

/-! ### `getClient` and `strToImageBytes` -/

def keyErrMsg : String :=
  "OpenAI API key not found. Set it using --key or OPENAI_API_KEY environment variable"

/-- Key resolution of `getClient`: the flag, else the environment variable,
else failure. -/
def resolveKey (flagKey envKey : String) : Option String :=
  if flagKey ≠ "" then some flagKey
  else if envKey ≠ "" then some envKey
  else none

/-- The trace of a run that dies in `getClient`. -/
def keyFatalTrace : Trace :=
  { requests := 0, reads := [], writes := [], prints := [], exit := ExitKind.fatal keyErrMsg }

/-- `strToImageBytes`: unmarshal the input as JSON into
`struct { Data string }`, base64-decode the `Data` field, decode the bytes
as an image, re-encode the image as PNG. -/
def strToImageBytes {Img : Type} (imageDecode : List Nat → Except String Img)
    (pngEncode : Img → Except String (List Nat)) (input : String) :
    Except String (List Nat) :=
  match jsonUnmarshalImageData input with
  | Except.error e => Except.error e
  | Except.ok dataField =>
    match base64Decode dataField with
    | Except.error e => Except.error e
    | Except.ok decoded =>
      match imageDecode decoded with
      | Except.error e => Except.error e
      | Except.ok img => pngEncode img

/-- The transformation claim C1 describes, in the spec's words: base64-decode
the payload itself, decode the image, re-encode it as PNG.  Defined only to
compare with `strToImageBytes`. -/
def specImagePipeline {Img : Type} (imageDecode : List Nat → Except String Img)
    (pngEncode : Img → Except String (List Nat)) (input : String) :
    Except String (List Nat) :=
  match base64Decode input with
  | Except.error e => Except.error e
  | Except.ok decoded =>
    match imageDecode decoded with
    | Except.error e => Except.error e
    | Except.ok img => pngEncode img

/-! ### The seven subcommand handlers

Each mirrors its Go function line by line: `getClient` first, then the
positional arguments (an out-of-range index is the `none` result), then the
request, the call, and the output.  `log.Fatal(x)` becomes
`ExitKind.fatal x`; `log.Fatal()` becomes `ExitKind.fatal ""`. -/

def dialogueRequest (prompt : String) : CompletionRequest :=
  { prompt := prompt, model := "text-davinci-003", maxTokens := 5000 }

def dialogue {Img : Type} (env : Env Img) (args : List String) : Option Trace :=
  match resolveKey env.flagKey env.envKey with
  | none => some keyFatalTrace
  | some _ =>
    match args[0]? with
    | none => none
    | some prompt =>
      match env.completionApi (dialogueRequest prompt) with
      | Except.error e =>
        some { requests := 1, reads := [], writes := [], prints := [],
               exit := ExitKind.fatal e }
      | Except.ok completion =>
        some { requests := 1, reads := [], writes := [],
               prints := completion.choices.map Choice.text, exit := ExitKind.ok }

def imageRecognitionRequest (imageBase64 : String) : CompletionRequest :=
  { prompt := "描述这个图片: " ++ imageBase64, model := "image-alpha-001",
    maxTokens := 50, temperature := 1 / 2, n := 1 }

def imageRecognition {Img : Type} (env : Env Img) (args : List String) : Option Trace :=
  match resolveKey env.flagKey env.envKey with
  | none => some keyFatalTrace
  | some _ =>
    match args[0]? with
    | none => none
    | some filename =>
      match env.readFile filename with
      | Except.error e =>
        some { requests := 0, reads := [filename], writes := [], prints := [],
               exit := ExitKind.fatal e }
      | Except.ok data =>
        match env.completionApi (imageRecognitionRequest (base64Encode data)) with
        | Except.error e =>
          some { requests := 1, reads := [filename], writes := [], prints := [],
                 exit := ExitKind.fatal e }
        | Except.ok result =>
          match result.choices[0]? with
          | none => none
          | some c =>
            some { requests := 1, reads := [filename], writes := [], prints := [c.text],
                   exit := ExitKind.ok }

def imageGenRequest (prompt : String) : ImageRequest :=
  { prompt := prompt, n := 1, size := createImageSize256x256,
    responseFormat := createImageResponseFormatB64JSON, user := "Developer" }

def imageGeneration {Img : Type} (env : Env Img) (args : List String) : Option Trace :=
  match resolveKey env.flagKey env.envKey with
  | none => some keyFatalTrace
  | some _ =>
    match args[0]? with
    | none => none
    | some prompt =>
      match env.imageApi (imageGenRequest prompt) with
      | Except.error _ =>
        some { requests := 1, reads := [], writes := [], prints := [],
               exit := ExitKind.fatal "no result, no image data" }
      | Except.ok result =>
        match result.data with
        | [] =>
          some { requests := 1, reads := [], writes := [], prints := [],
                 exit := ExitKind.fatal "" }
        | d :: _ =>
          match strToImageBytes env.imageDecode env.pngEncode d.b64JSON with
          | Except.error e =>
            some { requests := 1, reads := [], writes := [], prints := [],
                   exit := ExitKind.fatal e }
          | Except.ok imageBytes =>
            match env.writeFile "output.png" imageBytes with
            | some e =>
              some { requests := 1, reads := [], writes := [], prints := [],
                     exit := ExitKind.fatal e }
            | none =>
              some { requests := 1, reads := [], writes := [("output.png", imageBytes)],
                     prints := ["Image saved to output.png"], exit := ExitKind.ok }

def imageEditRequest (inputFile instructions : String) : ImageEditRequest :=
  { image := inputFile, prompt := instructions, n := 1, size := createImageSize256x256 }

def imageEditing {Img : Type} (env : Env Img) (args : List String) : Option Trace :=
  match resolveKey env.flagKey env.envKey with
  | none => some keyFatalTrace
  | some _ =>
    match args[0]? with
    | none => none
    | some inputFile =>
      match args[1]? with
      | none => none
      | some instructions =>
        match args[2]? with
        | none => none
        | some outputFile =>
          match env.openFile inputFile with
          | Except.error e =>
            some { requests := 0, reads := [inputFile], writes := [], prints := [],
                   exit := ExitKind.fatal e }
          | Except.ok _ =>
            match env.imageEditApi (imageEditRequest inputFile instructions) with
            | Except.error e =>
              some { requests := 1, reads := [inputFile], writes := [], prints := [],
                     exit := ExitKind.fatal e }
            | Except.ok result =>
              match result.data with
              | [] =>
                some { requests := 1, reads := [inputFile], writes := [], prints := [],
                       exit := ExitKind.fatal "no result, no image edited" }
              | d :: _ =>
                match strToImageBytes env.imageDecode env.pngEncode d.b64JSON with
                | Except.error e =>
                  some { requests := 1, reads := [inputFile], writes := [], prints := [],
                         exit := ExitKind.fatal e }
                | Except.ok ret =>
                  match env.writeFile outputFile ret with
                  | some e =>
                    some { requests := 1, reads := [inputFile], writes := [], prints := [],
                           exit := ExitKind.fatal e }
                  | none =>
                    some { requests := 1, reads := [inputFile],
                           writes := [(outputFile, ret)],
                           prints := ["Image saved to " ++ outputFile],
                           exit := ExitKind.ok }

def audioGenRequest (text : String) : CompletionRequest :=
  { prompt := text, model := "whisper-3", n := 1, temperature := 1 / 2, maxTokens := 1024 }

def audioGeneration {Img : Type} (env : Env Img) (args : List String) : Option Trace :=
  match resolveKey env.flagKey env.envKey with
  | none => some keyFatalTrace
  | some _ =>
    match args[0]? with
    | none => none
    | some text =>
      match args[1]? with
      | none => none
      | some outputFile =>
        match env.completionApi (audioGenRequest text) with
        | Except.error e =>
          some { requests := 1, reads := [], writes := [], prints := [],
                 exit := ExitKind.fatal e }
        | Except.ok result =>
          match result.choices[0]? with
          | none => none
          | some c =>
            match env.writeFile outputFile (strBytes c.text) with
            | some e =>
              some { requests := 1, reads := [], writes := [], prints := [],
                     exit := ExitKind.fatal e }
            | none =>
              some { requests := 1, reads := [],
                     writes := [(outputFile, strBytes c.text)],
                     prints := ["Audio saved to " ++ outputFile], exit := ExitKind.ok }

def audioTranscriptionRequest (filename : String) : AudioRequest :=
  { filePath := filename, model := "whisper-3", prompt := "用简体中文",
    temperature := 1 / 2, language := "zh" }

def audioTranscription {Img : Type} (env : Env Img) (args : List String) : Option Trace :=
  match resolveKey env.flagKey env.envKey with
  | none => some keyFatalTrace
  | some _ =>
    match args[0]? with
    | none => none
    | some filename =>
      match env.audioApi (audioTranscriptionRequest filename) with
      | Except.error e =>
        some { requests := 1, reads := [filename], writes := [], prints := [],
               exit := ExitKind.fatal e }
      | Except.ok result =>
        some { requests := 1, reads := [filename], writes := [], prints := [result.text],
               exit := ExitKind.ok }

def codeGenRequest (prompt : String) : CompletionRequest :=
  { prompt := prompt, maxTokens := 5000, model := "davinci-codex-002", n := 1,
    temperature := 1 / 2 }

def codeGeneration {Img : Type} (env : Env Img) (args : List String) : Option Trace :=
  match resolveKey env.flagKey env.envKey with
  | none => some keyFatalTrace
  | some _ =>
    match args[0]? with
    | none => none
    | some prompt =>
      match env.completionApi (codeGenRequest prompt) with
      | Except.error e =>
        some { requests := 1, reads := [], writes := [], prints := [],
               exit := ExitKind.fatal e }
      | Except.ok result =>
        match result.choices[0]? with
        | none => none
        | some c =>
          some { requests := 1, reads := [], writes := [], prints := [c.text],
                 exit := ExitKind.ok }

/-! ### The command dispatcher of `main` -/

inductive Cmd where
  | dialogue | imageRecognition | imageGeneration | imageEditing
  | audioGeneration | audioTranscription | codeGeneration
deriving DecidableEq

/-- The `cobra.ExactArgs` constraint each subcommand registers; `dialogue`
registers none. -/
def argsSpec : Cmd → Option Nat
  | Cmd.dialogue => none
  | Cmd.imageRecognition => some 1
  | Cmd.imageGeneration => some 1
  | Cmd.imageEditing => some 3
  | Cmd.audioGeneration => some 2
  | Cmd.audioTranscription => some 1
  | Cmd.codeGeneration => some 1

/-- The trace of a run rejected by cobra's argument validation: `Execute`
returns the error and `main` passes it to `log.Fatal`; the handler never
runs. -/
def usageTrace (n got : Nat) : Trace :=
  { requests := 0, reads := [], writes := [], prints := [],
    exit := ExitKind.fatal ("accepts " ++ toString n ++ " arg(s), received " ++ toString got) }

def runHandler {Img : Type} (env : Env Img) : Cmd → List String → Option Trace
  | Cmd.dialogue, args => dialogue env args
  | Cmd.imageRecognition, args => imageRecognition env args
  | Cmd.imageGeneration, args => imageGeneration env args
  | Cmd.imageEditing, args => imageEditing env args
  | Cmd.audioGeneration, args => audioGeneration env args
  | Cmd.audioTranscription, args => audioTranscription env args
  | Cmd.codeGeneration, args => codeGeneration env args

/-- One invocation of a subcommand: cobra validates the argument count when
a constraint is registered, then runs the handler. -/
def runCmd {Img : Type} (env : Env Img) (c : Cmd) (args : List String) : Option Trace :=
  match argsSpec c with
  | none => runHandler env c args
  | some n => if args.length = n then runHandler env c args else some (usageTrace n args.length)

/-! ### The files each subcommand is allowed to touch (claim C8's frame) -/

def designatedOutputs : Cmd → List String → List String
  | Cmd.imageGeneration, _ => ["output.png"]
  | Cmd.imageEditing, args => (args[2]?).toList
  | Cmd.audioGeneration, args => (args[1]?).toList
  | _, _ => []

def designatedInputs : Cmd → List String → List String
  | Cmd.imageRecognition, args => (args[0]?).toList
  | Cmd.imageEditing, args => (args[0]?).toList
  | Cmd.audioTranscription, args => (args[0]?).toList
  | _, _ => []

/-! ### Concrete environments used by witnesses and counterexamples -/

def idDecode : List Nat → Except String (List Nat) := fun bs => Except.ok bs

def idEncode : List Nat → Except String (List Nat) := fun bs => Except.ok bs

/-- A concrete environment: key on the flag, every API call failing with
"boom", reads succeeding, writes succeeding, identity image codec. -/
def apiErrEnv : Env (List Nat) :=
  { flagKey := "k", envKey := "",
    completionApi := fun _ => Except.error "boom",
    imageApi := fun _ => Except.error "boom",
    imageEditApi := fun _ => Except.error "boom",
    audioApi := fun _ => Except.error "boom",
    readFile := fun _ => Except.ok [1, 2, 3],
    openFile := fun _ => Except.ok (),
    writeFile := fun _ _ => none,
    imageDecode := idDecode, pngEncode := idEncode }

def noKeyEnv : Env (List Nat) := { apiErrEnv with flagKey := "", envKey := "" }

def flagAndEnvKeyEnv : Env (List Nat) := { apiErrEnv with flagKey := "flagK", envKey := "envK" }

def envKeyOnlyEnv : Env (List Nat) := { apiErrEnv with flagKey := "", envKey := "envK" }

/-- The image API answers with one image whose payload is the JSON document
the code expects, wrapping the base64 of the bytes of "hi". -/
def okImageEnv : Env (List Nat) :=
  { apiErrEnv with
    imageApi := fun _ => Except.ok { data := [{ b64JSON := "\x7b\"data\":\"aGk=\"\x7d" }] } }

/-- Completion API answering with two choices. -/
def twoChoicesEnv : Env (List Nat) :=
  { apiErrEnv with
    completionApi := fun _ => Except.ok { choices := [{ text := "A" }, { text := "B" }] } }

/-- Completion API answering successfully with an empty choice list. -/
def emptyChoicesEnv : Env (List Nat) :=
  { apiErrEnv with completionApi := fun _ => Except.ok { choices := [] } }

/-- Image APIs answering successfully with zero images. -/
def emptyImagesEnv : Env (List Nat) :=
  { apiErrEnv with
    imageApi := fun _ => Except.ok { data := [] },
    imageEditApi := fun _ => Except.ok { data := [] } }

/-- Reads fail as for a missing file. -/
def badReadEnv : Env (List Nat) :=
  { apiErrEnv with readFile := fun _ => Except.error "open missing.png: no such file" }

/-! ### Helper lemmas: per-handler bounds on requests, writes and reads -/

theorem dialogue_frame {Img : Type} (env : Env Img) (args : List String) (t : Trace)
    (h : dialogue env args = some t) :
    t.requests ≤ 1 ∧ t.writes = [] ∧ t.reads = [] := by
  unfold dialogue at h
  iterate 12 (all_goals try split at h)
  all_goals first
    | (injection h with h; subst h; simp_all [keyFatalTrace])
    | injection h

theorem imageRecognition_frame {Img : Type} (env : Env Img) (args : List String) (t : Trace)
    (h : imageRecognition env args = some t) :
    t.requests ≤ 1 ∧ t.writes = [] ∧ (∀ r ∈ t.reads, args[0]? = some r) := by
  unfold imageRecognition at h
  iterate 12 (all_goals try split at h)
  all_goals first
    | (injection h with h; subst h; simp_all [keyFatalTrace])
    | injection h

theorem imageGeneration_frame {Img : Type} (env : Env Img) (args : List String) (t : Trace)
    (h : imageGeneration env args = some t) :
    t.requests ≤ 1 ∧ (∀ w ∈ t.writes, w.1 = "output.png") ∧ t.reads = [] := by
  unfold imageGeneration at h
  iterate 12 (all_goals try split at h)
  all_goals first
    | (injection h with h; subst h; simp_all [keyFatalTrace])
    | injection h

theorem imageEditing_frame {Img : Type} (env : Env Img) (args : List String) (t : Trace)
    (h : imageEditing env args = some t) :
    t.requests ≤ 1 ∧ (∀ w ∈ t.writes, args[2]? = some w.1)
      ∧ (∀ r ∈ t.reads, args[0]? = some r) := by
  unfold imageEditing at h
  iterate 12 (all_goals try split at h)
  all_goals first
    | (injection h with h; subst h; simp_all [keyFatalTrace])
    | injection h

theorem audioGeneration_frame {Img : Type} (env : Env Img) (args : List String) (t : Trace)
    (h : audioGeneration env args = some t) :
    t.requests ≤ 1 ∧ (∀ w ∈ t.writes, args[1]? = some w.1) ∧ t.reads = [] := by
  unfold audioGeneration at h
  iterate 12 (all_goals try split at h)
  all_goals first
    | (injection h with h; subst h; simp_all [keyFatalTrace])
    | injection h

theorem audioTranscription_frame {Img : Type} (env : Env Img) (args : List String) (t : Trace)
    (h : audioTranscription env args = some t) :
    t.requests ≤ 1 ∧ t.writes = [] ∧ (∀ r ∈ t.reads, args[0]? = some r) := by
  unfold audioTranscription at h
  iterate 12 (all_goals try split at h)
  all_goals first
    | (injection h with h; subst h; simp_all [keyFatalTrace])
    | injection h

theorem codeGeneration_frame {Img : Type} (env : Env Img) (args : List String) (t : Trace)
    (h : codeGeneration env args = some t) :
    t.requests ≤ 1 ∧ t.writes = [] ∧ t.reads = [] := by
  unfold codeGeneration at h
  iterate 12 (all_goals try split at h)
  all_goals first
    | (injection h with h; subst h; simp_all [keyFatalTrace])
    | injection h

/-- Every trace a subcommand invocation can produce makes at most one
request, writes only designated output files and reads only designated
input files. -/
theorem runCmd_frame {Img : Type} (env : Env Img) (c : Cmd) (args : List String) (t : Trace)
    (h : runCmd env c args = some t) :
    t.requests ≤ 1 ∧ (∀ w ∈ t.writes, w.1 ∈ designatedOutputs c args)
      ∧ (∀ r ∈ t.reads, r ∈ designatedInputs c args) := by
  cases c
  case dialogue =>
    simp only [runCmd, argsSpec, runHandler] at h
    obtain ⟨h1, h2, h3⟩ := dialogue_frame env args t h
    exact ⟨h1, by simp [h2], by simp [h3]⟩
  case imageRecognition =>
    simp only [runCmd, argsSpec, runHandler] at h
    split at h
    · obtain ⟨h1, h2, h3⟩ := imageRecognition_frame env args t h
      refine ⟨h1, by simp [h2], fun r hr => ?_⟩
      simp [designatedInputs, h3 r hr]
    · injection h with h; subst h
      simp [usageTrace]
  case imageGeneration =>
    simp only [runCmd, argsSpec, runHandler] at h
    split at h
    · obtain ⟨h1, h2, h3⟩ := imageGeneration_frame env args t h
      refine ⟨h1, fun w hw => ?_, by simp [h3]⟩
      simp [designatedOutputs, h2 w hw]
    · injection h with h; subst h
      simp [usageTrace]
  case imageEditing =>
    simp only [runCmd, argsSpec, runHandler] at h
    split at h
    · obtain ⟨h1, h2, h3⟩ := imageEditing_frame env args t h
      refine ⟨h1, fun w hw => ?_, fun r hr => ?_⟩
      · simp [designatedOutputs, h2 w hw]
      · simp [designatedInputs, h3 r hr]
    · injection h with h; subst h
      simp [usageTrace]
  case audioGeneration =>
    simp only [runCmd, argsSpec, runHandler] at h
    split at h
    · obtain ⟨h1, h2, h3⟩ := audioGeneration_frame env args t h
      refine ⟨h1, fun w hw => ?_, by simp [h3]⟩
      simp [designatedOutputs, h2 w hw]
    · injection h with h; subst h
      simp [usageTrace]
  case audioTranscription =>
    simp only [runCmd, argsSpec, runHandler] at h
    split at h
    · obtain ⟨h1, h2, h3⟩ := audioTranscription_frame env args t h
      refine ⟨h1, by simp [h2], fun r hr => ?_⟩
      simp [designatedInputs, h3 r hr]
    · injection h with h; subst h
      simp [usageTrace]
  case codeGeneration =>
    simp only [runCmd, argsSpec, runHandler] at h
    split at h
    · obtain ⟨h1, h2, h3⟩ := codeGeneration_frame env args t h
      exact ⟨h1, by simp [h2], by simp [h3]⟩
    · injection h with h; subst h
      simp [usageTrace]

/-- With no key from the flag or the environment, every handler dies in
`getClient`. -/
theorem runHandler_noKey {Img : Type} (env : Env Img)
    (hkey : resolveKey env.flagKey env.envKey = none) (c : Cmd) (args : List String) :
    runHandler env c args = some keyFatalTrace := by
  cases c <;>
    simp [runHandler, dialogue, imageRecognition, imageGeneration, imageEditing,
      audioGeneration, audioTranscription, codeGeneration, hkey]

/-! ### The claims -/

/-- C1: the claim says the response transformation base64-decodes the payload
and re-encodes the decoded image as PNG, succeeding exactly when that
pipeline succeeds.  In fact `strToImageBytes` first unmarshals its input as
JSON and reads the `data` field, so a raw base64 payload — which is what the
callers hand it from `result.Data[0].B64JSON` — always fails with a JSON
syntax error, for every image codec; the spec's pipeline succeeds on the
same payload, and the code's pipeline only accepts a JSON-wrapped
payload. -/
theorem strToImageBytes_needs_json_wrapper :
    (∀ (Img : Type) (dec : List Nat → Except String Img)
        (enc : Img → Except String (List Nat)),
        strToImageBytes dec enc "aGVsbG8=" = Except.error "invalid JSON input")
    ∧ specImagePipeline idDecode idEncode "aGVsbG8=" = Except.ok [104, 101, 108, 108, 111]
    ∧ strToImageBytes idDecode idEncode "\x7b\"data\":\"aGVsbG8=\"\x7d"
        = Except.ok [104, 101, 108, 108, 111] := by
  refine ⟨fun Img dec enc => ?_, rfl, rfl⟩
  have hj : jsonUnmarshalImageData "aGVsbG8=" = Except.error "invalid JSON input" := rfl
  simp [strToImageBytes, hj]

/-- C2: the API key is the `--key` flag when non-empty, else `OPENAI_API_KEY`
when non-empty; when both are empty every subcommand invocation ends with a
fatal error message having issued zero API requests. -/
theorem key_resolution {Img : Type} (env : Env Img) :
    (env.flagKey ≠ "" → resolveKey env.flagKey env.envKey = some env.flagKey)
    ∧ (env.flagKey = "" → env.envKey ≠ "" →
        resolveKey env.flagKey env.envKey = some env.envKey)
    ∧ (env.flagKey = "" → env.envKey = "" →
        resolveKey env.flagKey env.envKey = none
        ∧ ∀ (c : Cmd) (args : List String), ∃ msg,
            runCmd env c args
              = some { requests := 0, reads := [], writes := [], prints := [],
                       exit := ExitKind.fatal msg }) := by
  refine ⟨fun h1 => by simp [resolveKey, h1],
    fun h1 h2 => by simp [resolveKey, h1, h2], fun h1 h2 => ?_⟩
  have hnone : resolveKey env.flagKey env.envKey = none := by simp [resolveKey, h1, h2]
  refine ⟨hnone, fun c args => ?_⟩
  cases hs : argsSpec c with
  | none =>
    exact ⟨keyErrMsg, by simp [runCmd, hs, runHandler_noKey env hnone c args, keyFatalTrace]⟩
  | some n =>
    by_cases hl : args.length = n
    · exact ⟨keyErrMsg,
        by simp [runCmd, hs, hl, runHandler_noKey env hnone c args, keyFatalTrace]⟩
    · exact ⟨"accepts " ++ toString n ++ " arg(s), received " ++ toString args.length,
        by simp [runCmd, hs, hl, usageTrace]⟩

/-- C2 witness: flag wins over the environment variable, the variable is the
fallback, and with neither the dialogue invocation dies with an error and
zero requests. -/
theorem key_resolution_witness :
    resolveKey flagAndEnvKeyEnv.flagKey flagAndEnvKeyEnv.envKey = some "flagK"
    ∧ resolveKey envKeyOnlyEnv.flagKey envKeyOnlyEnv.envKey = some "envK"
    ∧ resolveKey noKeyEnv.flagKey noKeyEnv.envKey = none
    ∧ ∃ msg, runCmd noKeyEnv Cmd.dialogue []
        = some { requests := 0, reads := [], writes := [], prints := [],
                 exit := ExitKind.fatal msg } :=
  ⟨(key_resolution flagAndEnvKeyEnv).1 (by decide),
   (key_resolution envKeyOnlyEnv).2.1 rfl (by decide),
   ((key_resolution noKeyEnv).2.2 rfl rfl).1,
   ((key_resolution noKeyEnv).2.2 rfl rfl).2 Cmd.dialogue []⟩

/-- C3 counterexample: with every API call failing with the error "boom",
image-generation exits with the fixed message "no result, no image data",
which is not that error, so "the program prints that error" fails for this
subcommand. -/
theorem imageGeneration_discards_api_error :
    runCmd apiErrEnv Cmd.imageGeneration ["cat"]
      = some { requests := 1, reads := [], writes := [], prints := [],
               exit := ExitKind.fatal "no result, no image data" }
    ∧ ExitKind.fatal "no result, no image data" ≠ ExitKind.fatal "boom" :=
  ⟨rfl, by decide⟩

/-- C3 amended: whenever the remote API call returns an error, the subcommand
exits fatally and writes no file; every subcommand logs the API error itself
except image-generation, which logs the fixed message
"no result, no image data". -/
theorem api_error_fatal_no_writes {Img : Type} (env : Env Img) (k e : String)
    (hk : resolveKey env.flagKey env.envKey = some k)
    (hc : ∀ r, env.completionApi r = Except.error e)
    (hi : ∀ r, env.imageApi r = Except.error e)
    (hie : ∀ r, env.imageEditApi r = Except.error e)
    (ha : ∀ r, env.audioApi r = Except.error e) :
    (∀ p, runCmd env Cmd.dialogue [p]
        = some { requests := 1, reads := [], writes := [], prints := [],
                 exit := ExitKind.fatal e })
    ∧ (∀ f bs, env.readFile f = Except.ok bs → runCmd env Cmd.imageRecognition [f]
        = some { requests := 1, reads := [f], writes := [], prints := [],
                 exit := ExitKind.fatal e })
    ∧ (∀ p, runCmd env Cmd.imageGeneration [p]
        = some { requests := 1, reads := [], writes := [], prints := [],
                 exit := ExitKind.fatal "no result, no image data" })
    ∧ (∀ fin ins fout, env.openFile fin = Except.ok () →
        runCmd env Cmd.imageEditing [fin, ins, fout]
          = some { requests := 1, reads := [fin], writes := [], prints := [],
                   exit := ExitKind.fatal e })
    ∧ (∀ a out, runCmd env Cmd.audioGeneration [a, out]
        = some { requests := 1, reads := [], writes := [], prints := [],
                 exit := ExitKind.fatal e })
    ∧ (∀ f, runCmd env Cmd.audioTranscription [f]
        = some { requests := 1, reads := [f], writes := [], prints := [],
                 exit := ExitKind.fatal e })
    ∧ (∀ p, runCmd env Cmd.codeGeneration [p]
        = some { requests := 1, reads := [], writes := [], prints := [],
                 exit := ExitKind.fatal e }) := by
  refine ⟨fun p => ?_, fun f bs hr => ?_, fun p => ?_, fun fin ins fout ho => ?_,
    fun a out => ?_, fun f => ?_, fun p => ?_⟩
  · simp [runCmd, argsSpec, runHandler, dialogue, hk, hc]
  · simp [runCmd, argsSpec, runHandler, imageRecognition, hk, hr, hc]
  · simp [runCmd, argsSpec, runHandler, imageGeneration, hk, hi]
  · simp [runCmd, argsSpec, runHandler, imageEditing, hk, ho, hie]
  · simp [runCmd, argsSpec, runHandler, audioGeneration, hk, hc]
  · simp [runCmd, argsSpec, runHandler, audioTranscription, hk, ha]
  · simp [runCmd, argsSpec, runHandler, codeGeneration, hk, hc]

/-- C3 amended, witness: two concrete invocations against the always-failing
API. -/
theorem api_error_fatal_no_writes_witness :
    runCmd apiErrEnv Cmd.dialogue ["hi"]
      = some { requests := 1, reads := [], writes := [], prints := [],
               exit := ExitKind.fatal "boom" }
    ∧ runCmd apiErrEnv Cmd.imageEditing ["in.png", "edit", "out.png"]
      = some { requests := 1, reads := ["in.png"], writes := [], prints := [],
               exit := ExitKind.fatal "boom" } := by
  have h := api_error_fatal_no_writes apiErrEnv "k" "boom" rfl (fun _ => rfl) (fun _ => rfl)
    (fun _ => rfl) (fun _ => rfl)
  exact ⟨h.1 "hi", h.2.2.2.1 "in.png" "edit" "out.png" rfl⟩

/-- C4: when the image-generation API call succeeds, the response carries at
least one image, its payload transforms successfully and the write succeeds,
the program writes the transformed bytes to `output.png` and prints
"Image saved to output.png". -/
theorem imageGeneration_success {Img : Type} (env : Env Img) (k prompt : String)
    (resp : ImageResponse) (d : ImageResponseData) (ds : List ImageResponseData)
    (bs : List Nat)
    (hk : resolveKey env.flagKey env.envKey = some k)
    (hapi : env.imageApi (imageGenRequest prompt) = Except.ok resp)
    (hdata : resp.data = d :: ds)
    (htrans : strToImageBytes env.imageDecode env.pngEncode d.b64JSON = Except.ok bs)
    (hwrite : env.writeFile "output.png" bs = none) :
    runCmd env Cmd.imageGeneration [prompt]
      = some { requests := 1, reads := [], writes := [("output.png", bs)],
               prints := ["Image saved to output.png"], exit := ExitKind.ok } := by
  simp [runCmd, argsSpec, runHandler, imageGeneration, hk, hapi, hdata, htrans, hwrite]

/-- C4 witness: a concrete successful generation (JSON-wrapped payload of the
bytes of "hi", identity codec) writes `output.png` and prints the message. -/
theorem imageGeneration_success_witness :
    runCmd okImageEnv Cmd.imageGeneration ["a cat"]
      = some { requests := 1, reads := [], writes := [("output.png", [104, 105])],
               prints := ["Image saved to output.png"], exit := ExitKind.ok } :=
  imageGeneration_success okImageEnv "k" "a cat"
    { data := [{ b64JSON := "\x7b\"data\":\"aGk=\"\x7d" }] }
    { b64JSON := "\x7b\"data\":\"aGk=\"\x7d" } [] [104, 105] rfl rfl rfl rfl rfl

/-- C5 counterexample: with a valid key and a valid argument count but an
unreadable input file, image-recognition exits after zero outbound requests,
against "never zero requests after successful key resolution and argument
validation". -/
theorem imageRecognition_zero_requests :
    resolveKey badReadEnv.flagKey badReadEnv.envKey = some "k"
    ∧ argsSpec Cmd.imageRecognition = some 1
    ∧ runCmd badReadEnv Cmd.imageRecognition ["missing.png"]
        = some { requests := 0, reads := ["missing.png"], writes := [], prints := [],
                 exit := ExitKind.fatal "open missing.png: no such file" } :=
  ⟨rfl, rfl, rfl⟩

/-- C5 amended: every invocation issues at most one outbound request, and
exactly one once the key resolves, the argument count is valid, and — for the
subcommands that read or open a local input file before calling the API —
that access succeeds. -/
theorem one_request_per_invocation {Img : Type} (env : Env Img) (k : String)
    (hk : resolveKey env.flagKey env.envKey = some k) :
    (∀ c args t, runCmd env c args = some t → t.requests ≤ 1)
    ∧ (∀ p t, runCmd env Cmd.dialogue [p] = some t → t.requests = 1)
    ∧ (∀ f bs, env.readFile f = Except.ok bs →
        ∀ t, runCmd env Cmd.imageRecognition [f] = some t → t.requests = 1)
    ∧ (∀ p t, runCmd env Cmd.imageGeneration [p] = some t → t.requests = 1)
    ∧ (∀ fin ins fout, env.openFile fin = Except.ok () →
        ∀ t, runCmd env Cmd.imageEditing [fin, ins, fout] = some t → t.requests = 1)
    ∧ (∀ a out t, runCmd env Cmd.audioGeneration [a, out] = some t → t.requests = 1)
    ∧ (∀ f t, runCmd env Cmd.audioTranscription [f] = some t → t.requests = 1)
    ∧ (∀ p t, runCmd env Cmd.codeGeneration [p] = some t → t.requests = 1) := by
  refine ⟨fun c args t h => (runCmd_frame env c args t h).1, ?_, ?_, ?_, ?_, ?_, ?_, ?_⟩
  · intro p t h
    simp only [runCmd, argsSpec, runHandler] at h
    unfold dialogue at h
    rw [hk] at h
    iterate 12 (all_goals try split at h)
    all_goals first
      | (injection h with h; subst h; simp_all)
      | injection h
  · intro f bs hr t h
    simp only [runCmd, argsSpec, runHandler] at h
    unfold imageRecognition at h
    rw [hk] at h
    iterate 12 (all_goals try split at h)
    all_goals first
      | (injection h with h; subst h; simp_all)
      | injection h
  · intro p t h
    simp only [runCmd, argsSpec, runHandler] at h
    unfold imageGeneration at h
    rw [hk] at h
    iterate 12 (all_goals try split at h)
    all_goals first
      | (injection h with h; subst h; simp_all)
      | injection h
  · intro fin ins fout ho t h
    simp only [runCmd, argsSpec, runHandler] at h
    unfold imageEditing at h
    rw [hk] at h
    iterate 12 (all_goals try split at h)
    all_goals first
      | (injection h with h; subst h; simp_all)
      | injection h
  · intro a out t h
    simp only [runCmd, argsSpec, runHandler] at h
    unfold audioGeneration at h
    rw [hk] at h
    iterate 12 (all_goals try split at h)
    all_goals first
      | (injection h with h; subst h; simp_all)
      | injection h
  · intro f t h
    simp only [runCmd, argsSpec, runHandler] at h
    unfold audioTranscription at h
    rw [hk] at h
    iterate 12 (all_goals try split at h)
    all_goals first
      | (injection h with h; subst h; simp_all)
      | injection h
  · intro p t h
    simp only [runCmd, argsSpec, runHandler] at h
    unfold codeGeneration at h
    rw [hk] at h
    iterate 12 (all_goals try split at h)
    all_goals first
      | (injection h with h; subst h; simp_all)
      | injection h

/-- C5 amended, witness: the dialogue run against the always-failing API
issues exactly one request. -/
theorem one_request_per_invocation_witness :
    ({ requests := 1, reads := [], writes := [], prints := [],
       exit := ExitKind.fatal "boom" } : Trace).requests ≤ 1
    ∧ ({ requests := 1, reads := [], writes := [], prints := [],
         exit := ExitKind.fatal "boom" } : Trace).requests = 1 := by
  have h := one_request_per_invocation apiErrEnv "k" rfl
  exact ⟨h.1 Cmd.dialogue ["hi"] _ rfl, h.2.1 "hi" _ rfl⟩

/-- C6: a successful dialogue invocation prints the text of every choice of
the completion response, in response order, one print per choice, and ends
normally — in particular an empty choice list prints nothing. -/
theorem dialogue_prints_choices {Img : Type} (env : Env Img) (k p : String)
    (resp : CompletionResponse)
    (hk : resolveKey env.flagKey env.envKey = some k)
    (hapi : env.completionApi (dialogueRequest p) = Except.ok resp) :
    runCmd env Cmd.dialogue [p]
      = some { requests := 1, reads := [], writes := [],
               prints := resp.choices.map Choice.text, exit := ExitKind.ok } := by
  simp [runCmd, argsSpec, runHandler, dialogue, hk, hapi]

/-- C6 witness: two choices print two lines in order; zero choices print
nothing and still exit normally. -/
theorem dialogue_prints_choices_witness :
    runCmd twoChoicesEnv Cmd.dialogue ["hi"]
      = some { requests := 1, reads := [], writes := [], prints := ["A", "B"],
               exit := ExitKind.ok }
    ∧ runCmd emptyChoicesEnv Cmd.dialogue ["hi"]
      = some { requests := 1, reads := [], writes := [], prints := [],
               exit := ExitKind.ok } :=
  ⟨dialogue_prints_choices twoChoicesEnv "k" "hi"
      { choices := [{ text := "A" }, { text := "B" }] } rfl rfl,
   dialogue_prints_choices emptyChoicesEnv "k" "hi" { choices := [] } rfl rfl⟩

/-- C7: an image-generation or image-editing run whose API call succeeds with
zero images dies in `log.Fatal` — printing its (for image-generation empty)
message — and writes no file. -/
theorem zero_images_fatal_no_write {Img : Type} (env : Env Img) (k : String)
    (hk : resolveKey env.flagKey env.envKey = some k) :
    (∀ p, env.imageApi (imageGenRequest p) = Except.ok { data := [] } →
      runCmd env Cmd.imageGeneration [p]
        = some { requests := 1, reads := [], writes := [], prints := [],
                 exit := ExitKind.fatal "" })
    ∧ (∀ fin ins fout, env.openFile fin = Except.ok () →
        env.imageEditApi (imageEditRequest fin ins) = Except.ok { data := [] } →
        runCmd env Cmd.imageEditing [fin, ins, fout]
          = some { requests := 1, reads := [fin], writes := [], prints := [],
                   exit := ExitKind.fatal "no result, no image edited" }) := by
  constructor
  · intro p hapi
    simp [runCmd, argsSpec, runHandler, imageGeneration, hk, hapi]
  · intro fin ins fout ho hapi
    simp [runCmd, argsSpec, runHandler, imageEditing, hk, ho, hapi]

/-- C7 witness: concrete zero-image responses for both subcommands. -/
theorem zero_images_fatal_no_write_witness :
    runCmd emptyImagesEnv Cmd.imageGeneration ["p"]
      = some { requests := 1, reads := [], writes := [], prints := [],
               exit := ExitKind.fatal "" }
    ∧ runCmd emptyImagesEnv Cmd.imageEditing ["a.png", "edit", "b.png"]
      = some { requests := 1, reads := ["a.png"], writes := [], prints := [],
               exit := ExitKind.fatal "no result, no image edited" } := by
  have h := zero_images_fatal_no_write emptyImagesEnv "k" rfl
  exact ⟨h.1 "p" rfl, h.2 "a.png" "edit" "b.png" rfl rfl⟩

/-- C8: every file a subcommand invocation writes is its designated output
file and every file it reads (or opens, or hands to the client library) is
its explicitly named input file; the model's trace lists all file accesses,
so everything else is untouched, and the environment is passed in anew each
run, so nothing persists across invocations. -/
theorem no_stray_file_access {Img : Type} (env : Env Img) (c : Cmd) (args : List String)
    (t : Trace) (h : runCmd env c args = some t) :
    (∀ w ∈ t.writes, w.1 ∈ designatedOutputs c args)
    ∧ (∀ r ∈ t.reads, r ∈ designatedInputs c args) :=
  ⟨(runCmd_frame env c args t h).2.1, (runCmd_frame env c args t h).2.2⟩

/-- C8 witness: the successful image generation writes only `output.png` and
reads nothing. -/
theorem no_stray_file_access_witness :
    (∀ w ∈ ([("output.png", [104, 105])] : List (String × List Nat)),
        w.1 ∈ designatedOutputs Cmd.imageGeneration ["a cat"])
    ∧ (∀ r ∈ ([] : List String), r ∈ designatedInputs Cmd.imageGeneration ["a cat"]) :=
  no_stray_file_access okImageEnv Cmd.imageGeneration ["a cat"]
    { requests := 1, reads := [], writes := [("output.png", [104, 105])],
      prints := ["Image saved to output.png"], exit := ExitKind.ok } rfl

/-- C9: dialogue registers no argument-count constraint while every other
subcommand does; with a resolved key and zero positional arguments the
dialogue handler's `args[0]` access is out of range (the run is the panic
`none`), whereas a wrong argument count on any constrained subcommand is
rejected by cobra before its handler runs. -/
theorem dialogue_unchecked_args {Img : Type} (env : Env Img) (k : String)
    (hk : resolveKey env.flagKey env.envKey = some k) :
    argsSpec Cmd.dialogue = none
    ∧ (∀ c : Cmd, c ≠ Cmd.dialogue → ∃ n, argsSpec c = some n)
    ∧ runCmd env Cmd.dialogue [] = none
    ∧ (∀ c n args, argsSpec c = some n → args.length ≠ n →
        runCmd env c args = some (usageTrace n args.length)) := by
  refine ⟨rfl, fun c hc => ?_, ?_, fun c n args hs hl => ?_⟩
  · cases c <;> first | (exact absurd rfl hc) | exact ⟨_, rfl⟩
  · simp [runCmd, argsSpec, runHandler, dialogue, hk]
  · simp [runCmd, hs, hl]

/-- C9 witness: with a key present, `dialogue` with no arguments panics while
`image-generation` with no arguments is rejected with a usage error. -/
theorem dialogue_unchecked_args_witness :
    argsSpec Cmd.dialogue = none
    ∧ runCmd apiErrEnv Cmd.dialogue [] = none
    ∧ runCmd apiErrEnv Cmd.imageGeneration [] = some (usageTrace 1 0) := by
  have h := dialogue_unchecked_args apiErrEnv "k" rfl
  exact ⟨h.1, h.2.2.1, h.2.2.2 Cmd.imageGeneration 1 [] rfl (by decide)⟩

/-- C10: the imageRecognition, audioGeneration and codeGeneration handlers
index `result.Choices[0]` unchecked: an API success carrying an empty choice
list makes all three panic (the run is `none`), and with at least one choice
none of them panics. -/
theorem choices_indexed_unchecked :
    (∀ (Img : Type) (env : Env Img) (k : String),
      resolveKey env.flagKey env.envKey = some k →
      (∀ r, env.completionApi r = Except.ok { choices := [] }) →
      (∀ f bs, env.readFile f = Except.ok bs →
          runCmd env Cmd.imageRecognition [f] = none)
      ∧ (∀ a out, runCmd env Cmd.audioGeneration [a, out] = none)
      ∧ (∀ p, runCmd env Cmd.codeGeneration [p] = none))
    ∧ (∀ (Img : Type) (env : Env Img) (k : String) (c : Choice) (cs : List Choice),
      resolveKey env.flagKey env.envKey = some k →
      (∀ r, env.completionApi r = Except.ok { choices := c :: cs }) →
      (∀ f bs, env.readFile f = Except.ok bs →
          (runCmd env Cmd.imageRecognition [f]).isSome = true)
      ∧ (∀ a out, (runCmd env Cmd.audioGeneration [a, out]).isSome = true)
      ∧ (∀ p, (runCmd env Cmd.codeGeneration [p]).isSome = true)) := by
  constructor
  · intro Img env k hk hc
    refine ⟨fun f bs hr => ?_, fun a out => ?_, fun p => ?_⟩
    · simp [runCmd, argsSpec, runHandler, imageRecognition, hk, hr, hc]
    · simp [runCmd, argsSpec, runHandler, audioGeneration, hk, hc]
    · simp [runCmd, argsSpec, runHandler, codeGeneration, hk, hc]
  · intro Img env k c cs hk hc
    refine ⟨fun f bs hr => ?_, fun a out => ?_, fun p => ?_⟩
    · simp [runCmd, argsSpec, runHandler, imageRecognition, hk, hr, hc]
    · rcases hw : env.writeFile out (strBytes c.text) with _ | e <;>
        simp [runCmd, argsSpec, runHandler, audioGeneration, hk, hc, hw]
    · simp [runCmd, argsSpec, runHandler, codeGeneration, hk, hc]

/-- C10 witness: the empty-choice response panics code-generation, one with
choices does not. -/
theorem choices_indexed_unchecked_witness :
    runCmd emptyChoicesEnv Cmd.codeGeneration ["x"] = none
    ∧ (runCmd twoChoicesEnv Cmd.codeGeneration ["x"]).isSome = true := by
  have h1 := choices_indexed_unchecked.1 (List Nat) emptyChoicesEnv "k" rfl (fun _ => rfl)
  have h2 := choices_indexed_unchecked.2 (List Nat) twoChoicesEnv "k" { text := "A" }
    [{ text := "B" }] rfl (fun _ => rfl)
  exact ⟨h1.2.2 "x", h2.2.2 "x"⟩

end OpenAICli
